import Mathlib

/-!
Shallow embedding of the EV2Gym simulation engine (`gym_env/ev_city.py`) and
proofs about its per-step protocol.  The engine source is embedded faithfully;
the station, transformer and EV classes it drives live in files that are not
part of the sources here, so their operations are modelled from the spec and
marked as such.  The abstract behaviour of a station's `step` method is a
parameter `f : CSStep` of the engine.
-/

namespace EV2Gym

/-- An electric vehicle as constructed by the engine when spawning:
`EV(location=cs.id, battery_capacity_at_arrival=…, time_of_arrival=…,
earlier_time_of_departure=…)`. -/
structure EV where
  location : Nat
  battery_capacity_at_arrival : ℚ
  time_of_arrival : Nat
  earlier_time_of_departure : Nat
  deriving DecidableEq

/-- Modelled from the spec: `EV.reset` (file `ev.py` is missing from the
sources) restores the EV to its arrival state; the record above carries only
arrival-time attributes, so it is the identity. -/
def EV.reset (ev : EV) : EV := ev

/-- Modelled from the spec: a transformer (file `transformer.py` is missing
from the sources) carries a rated capacity and the power aggregated during the
current step. -/
structure Transformer where
  id : Nat
  max_power : ℚ
  current_power : ℚ
  deriving DecidableEq

/-- Modelled from the spec: `Transformer.step` accumulates a station's reported
output into `current_power`. -/
def Transformer.step (t : Transformer) (p : ℚ) : Transformer :=
  { t with current_power := t.current_power + p }

/-- Modelled from the spec: `Transformer.is_overloaded` is true iff the
accumulated power exceeds the rated capacity. -/
def Transformer.is_overloaded (t : Transformer) : Bool :=
  decide (t.max_power < t.current_power)

/-- Modelled from the spec: `Transformer.get_state` reports current power and
capacity for the observation. -/
def Transformer.get_state (t : Transformer) : List ℚ :=
  [t.current_power, t.max_power]

/-- Modelled from the spec: a charging station (file `ev_charger.py` is missing
from the sources), restricted to the fields the engine reads: identity,
connected transformer, port count, per-port occupancy and the power output of
the current step. -/
structure EV_Charger where
  id : Nat
  connected_transformer : Nat
  n_ports : Nat
  evs_connected : List (Option EV)
  current_power_output : ℚ
  deriving DecidableEq

/-- Number of occupied ports (`cs.n_evs_connected` in the source). -/
def EV_Charger.n_evs_connected (cs : EV_Charger) : Nat :=
  cs.evs_connected.countP (fun o => o.isSome)

/-- Station well-formedness: the occupancy list has exactly one slot per
port. -/
def EV_Charger.WF (cs : EV_Charger) : Prop :=
  cs.evs_connected.length = cs.n_ports

instance (cs : EV_Charger) : Decidable cs.WF :=
  inferInstanceAs (Decidable (cs.evs_connected.length = cs.n_ports))

/-- Modelled from the spec: helper of `spawn_ev` assigning the EV to the first
free port slot, failing when every slot is taken. -/
def placeFirstFree (ports : List (Option EV)) (ev : EV) :
    Option (List (Option EV)) :=
  match ports with
  | [] => none
  | none :: rest => some (some ev :: rest)
  | some e :: rest => (placeFirstFree rest ev).map (fun l => some e :: l)

/-- Modelled from the spec: `EV_Charger.spawn_ev` assigns the EV to the first
free port and signals a capacity error (`none`) when no free port exists. -/
def EV_Charger.spawn_ev (cs : EV_Charger) (ev : EV) : Option EV_Charger :=
  (placeFirstFree cs.evs_connected ev).map
    (fun ps => { cs with evs_connected := ps })

/-- Modelled from the spec: `EV_Charger.reset` empties all ports and zeroes the
per-step aggregates. -/
def EV_Charger.reset (cs : EV_Charger) : EV_Charger :=
  { cs with evs_connected := List.replicate cs.n_ports none,
            current_power_output := 0 }

/-- Modelled from the spec: `EV_Charger.get_state` is a fixed-shape numeric
summary of the station used to build the global observation. -/
def EV_Charger.get_state (cs : EV_Charger) : List ℚ :=
  [(cs.n_evs_connected : ℚ), cs.current_power_output]

/-- Behaviour of `EV_Charger.step` (file `ev_charger.py` is missing from the
sources): from a station, its slice of the action vector and the two prices,
produce the updated station, the cost of the step and the satisfaction scores
of the EVs that departed.  The engine below is parametric in this
behaviour. -/
abbrev CSStep := EV_Charger → List ℚ → ℚ → ℚ → EV_Charger × ℚ × List ℚ

/-- Structural contract of a station step from the spec: stepping a station
never changes its identity, its transformer connection or its port
structure. -/
def CSStepOK (f : CSStep) : Prop :=
  ∀ cs a cp dp,
    (f cs a cp dp).1.id = cs.id ∧
    (f cs a cp dp).1.connected_transformer = cs.connected_transformer ∧
    (f cs a cp dp).1.n_ports = cs.n_ports ∧
    (f cs a cp dp).1.evs_connected.length = cs.evs_connected.length

/-- Trivial station behaviour used to instantiate the engine on concrete
examples: the station is unchanged, zero cost, no departures. -/
def trivialCS : CSStep := fun cs _ _ _ => (cs, 0, [])

/-- One station's worth of random draws for the spawning phase of a step:
`rand` models `np.random.rand()`, `battery` models `np.random.uniform(1, 49)`
and `stay` models `np.random.randint(7, 15)`. -/
structure SpawnRand where
  rand : ℚ
  battery : ℚ
  stay : Nat

/-- Range contract of the random draws, as guaranteed by numpy. -/
def SpawnRand.Valid (r : SpawnRand) : Prop :=
  0 ≤ r.rand ∧ r.rand < 1 ∧ 1 ≤ r.battery ∧ r.battery < 49 ∧
    7 ≤ r.stay ∧ r.stay < 15

instance (r : SpawnRand) : Decidable r.Valid :=
  inferInstanceAs (Decidable (0 ≤ r.rand ∧ r.rand < 1 ∧ 1 ≤ r.battery ∧
    r.battery < 49 ∧ 7 ≤ r.stay ∧ r.stay < 15))

/-- Failure modes of `EVCity.step`: the `assert not self.done` precondition,
the modelled action-length precondition of a station step, the max-stay
`ValueError`, the capacity error of `spawn_ev`, a Python `IndexError` on list
indexing, and the unimplemented grid path. -/
inductive EngineError where
  | episodeDone
  | actionLength
  | maxStayConfig
  | capacity
  | indexError
  | gridUnimplemented
  deriving DecidableEq

/-- Read-only data of one `EVCity.step` call, shared by the station loop and
the profile-spawning phase. -/
structure StepCfg where
  charge_prices : Nat → Nat → ℚ
  discharge_prices : Nat → Nat → ℚ
  current_step : Nat
  simulation_length : Nat
  random_mode : Bool
  save_replay : Bool

/-- Mutable state threaded through the station loop of `EVCity.step`: the
local variables of the loop together with the engine fields the loop mutates
in place. -/
structure LoopAcc where
  port_counter : Nat
  total_costs : ℚ
  user_satisfaction_list : List ℚ
  transformers : List Transformer
  stations_done : List EV_Charger
  total_evs_spawned : Nat
  current_ev_departed : Nat
  current_ev_arrived : Nat
  EVs : List EV
  empty_ports_flag : Bool

/-- Body of the per-station loop of `EVCity.step` (`ev_city.py` lines
245-293): step the station on its slice of the action vector, record the
satisfaction scores, feed the station's power into its transformer, and in
random mode possibly spawn one EV.  Errors carry the mutated state, mirroring
a raised Python exception.  The action-length check models the precondition of
the station step on a slice shorter than the station's port count. -/
def stationBody (f : CSStep) (cfg : StepCfg) (actions : List ℚ) (r : SpawnRand)
    (acc : LoopAcc) (cs : EV_Charger) :
    Except (EngineError × LoopAcc × EV_Charger) LoopAcc :=
  let n_ports := cs.n_ports
  let slice := (actions.drop acc.port_counter).take n_ports
  if slice.length < n_ports then
    .error (.actionLength, acc, cs)
  else
    let res := f cs slice (cfg.charge_prices cs.id cfg.current_step)
      (cfg.discharge_prices cs.id cfg.current_step)
    let cs1 := res.1
    let costs := res.2.1
    let user_satisfaction := res.2.2
    let acc1 := { acc with
      user_satisfaction_list := acc.user_satisfaction_list ++ user_satisfaction }
    match acc1.transformers[cs1.connected_transformer]? with
    | none => .error (.indexError, acc1, cs1)
    | some tr =>
      let acc2 := { acc1 with
        transformers := acc1.transformers.set cs1.connected_transformer
          (tr.step cs1.current_power_output),
        total_costs := acc1.total_costs + costs,
        current_ev_departed := acc1.current_ev_departed + user_satisfaction.length,
        port_counter := acc1.port_counter + n_ports }
      if cfg.random_mode then
        if 15 > cfg.simulation_length then
          .error (.maxStayConfig, { acc2 with empty_ports_flag := false }, cs1)
        else if (!(acc2.empty_ports_flag
              && decide (cfg.simulation_length ≤ cfg.current_step + 1 + 15)))
            && decide (cs1.n_evs_connected < n_ports) then
          if decide (r.rand < mkRat 4 5) then
            let ev : EV :=
              { location := cs1.id,
                battery_capacity_at_arrival := r.battery,
                time_of_arrival := cfg.current_step + 1,
                earlier_time_of_departure := cfg.current_step + 1 + r.stay }
            match cs1.spawn_ev ev with
            | none => .error (.capacity, acc2, cs1)
            | some cs2 =>
              .ok { acc2 with
                stations_done := acc2.stations_done ++ [cs2],
                EVs := if cfg.save_replay then acc2.EVs ++ [ev] else acc2.EVs,
                total_evs_spawned := acc2.total_evs_spawned + 1,
                current_ev_arrived := acc2.current_ev_arrived + 1 }
          else .ok { acc2 with stations_done := acc2.stations_done ++ [cs1] }
        else .ok { acc2 with stations_done := acc2.stations_done ++ [cs1] }
      else .ok { acc2 with stations_done := acc2.stations_done ++ [cs1] }

/-- The per-station loop of `EVCity.step`: stations processed in order, the
`i`-th station consuming the `i`-th block of random draws.  On error the
unprocessed stations (headed by the possibly already-stepped current one) are
returned alongside the mutated state. -/
def stationLoop (f : CSStep) (cfg : StepCfg) (actions : List ℚ)
    (rng : Nat → SpawnRand) (stations : List EV_Charger) (i : Nat)
    (acc : LoopAcc) : Except (EngineError × LoopAcc × List EV_Charger) LoopAcc :=
  match stations with
  | [] => .ok acc
  | cs :: rest =>
    match stationBody f cfg actions (rng i) acc cs with
    | .error (e, acc1, cs1) => .error (e, acc1, cs1 :: rest)
    | .ok acc1 => stationLoop f cfg actions rng rest (i + 1) acc1

/-- The profile-mode spawning phase of `EVCity.step` (`ev_city.py` lines
296-312): scan the remaining profile, spawn each EV arriving exactly at the
next step, stop at the first strictly later arrival, skip stale entries.  Note
the source calls `spawn_ev` here without checking for a free port. -/
def profileLoop (cfg : StepCfg) (evs : List EV) (stations : List EV_Charger)
    (acc : LoopAcc) :
    Except (EngineError × LoopAcc × List EV_Charger) (List EV_Charger × LoopAcc) :=
  match evs with
  | [] => .ok (stations, acc)
  | ev :: rest =>
    if ev.time_of_arrival = cfg.current_step + 1 then
      match stations[ev.location]? with
      | none => .error (.indexError, acc, stations)
      | some cs =>
        match cs.spawn_ev ev.reset with
        | none => .error (.capacity, acc, stations)
        | some cs1 =>
          profileLoop cfg rest (stations.set ev.location cs1)
            { acc with
              total_evs_spawned := acc.total_evs_spawned + 1,
              current_ev_arrived := acc.current_ev_arrived + 1,
              EVs := if cfg.save_replay then acc.EVs ++ [ev] else acc.EVs }
    else if cfg.current_step + 1 < ev.time_of_arrival then
      .ok (stations, acc)
    else
      profileLoop cfg rest stations acc

/-- Dispatch of the spawning phase after the station loop: nothing in random
mode (spawning already happened inside the loop), the profile scan otherwise,
starting from the already-consumed prefix `total_evs_spawned`. -/
def profilePhase (cfg : StepCfg) (ev_profiles : Option (List EV))
    (stations : List EV_Charger) (acc : LoopAcc) :
    Except (EngineError × LoopAcc × List EV_Charger) (List EV_Charger × LoopAcc) :=
  match ev_profiles with
  | none => .ok (stations, acc)
  | some profile => profileLoop cfg (profile.drop acc.total_evs_spawned) stations acc

/-- The engine state of `EVCity` (`ev_city.py`), restricted to the fields read
or written by `reset` and `step`. -/
structure EVCity where
  generate_rnd_game : Bool
  empty_ports_at_end_of_simulation : Bool
  save_replay : Bool
  simulate_grid : Bool
  simulation_length : Nat
  score_threshold : ℚ
  timescale : Nat
  cs : Nat
  charge_prices : Nat → Nat → ℚ
  discharge_prices : Nat → Nat → ℚ
  transformers : List Transformer
  charging_stations : List EV_Charger
  ev_profiles : Option (List EV)
  current_step : Nat
  total_evs_spawned : Nat
  current_ev_departed : Nat
  current_ev_arrived : Nat
  current_evs_parked : Int
  done : Bool
  EVs : List EV

/-- The observation assembly `EVCity._get_observation`: step counter,
timescale and station count, followed by every transformer's and every
station's state vector. -/
def EVCity.get_observation (env : EVCity) : List ℚ :=
  [(env.current_step : ℚ), (env.timescale : ℚ), (env.cs : ℚ)]
    ++ (env.transformers.map Transformer.get_state).flatten
    ++ (env.charging_stations.map EV_Charger.get_state).flatten

/-- `EVCity.reset` (`ev_city.py` lines 212-219): zero the step counter, reset
every charging station, return the updated engine together with the
observation the source returns.  Note the source does not touch
`self.done`. -/
def EVCity.reset (env : EVCity) : EVCity × List ℚ :=
  let env1 := { env with
    current_step := 0,
    charging_stations := env.charging_stations.map EV_Charger.reset }
  (env1, env1.get_observation)

/-- `EVCity._calculate_reward` (`ev_city.py` lines 442-445): the reward is
exactly the total cost; the satisfaction list is ignored. -/
def calculate_reward (total_costs : ℚ) (_user_satisfaction_list : List ℚ) : ℚ :=
  total_costs

/-- Total number of ports over all stations (`self.number_of_ports`). -/
def EVCity.number_of_ports (env : EVCity) : Nat :=
  (env.charging_stations.map (fun cs => cs.n_ports)).sum

/-- Configuration snapshot taken by one `step` call. -/
def mkCfg (env : EVCity) : StepCfg :=
  { charge_prices := env.charge_prices,
    discharge_prices := env.discharge_prices,
    current_step := env.current_step,
    simulation_length := env.simulation_length,
    random_mode := env.ev_profiles.isNone,
    save_replay := env.save_replay }

/-- Initial loop state of one `step` call: transformer accumulators zeroed,
per-step arrival and departure counters cleared (`ev_city.py` lines
232-242). -/
def initAcc (env : EVCity) : LoopAcc :=
  { port_counter := 0, total_costs := 0, user_satisfaction_list := [],
    transformers := env.transformers.map (fun t => { t with current_power := 0 }),
    stations_done := [], total_evs_spawned := env.total_evs_spawned,
    current_ev_departed := 0, current_ev_arrived := 0, EVs := env.EVs,
    empty_ports_flag := env.empty_ports_at_end_of_simulation }

/-- Reassemble the engine state observed by the caller when `step` raises: the
stations and the in-place-mutated fields come from the loop state, while the
step counter and the done flag keep their values from before the call. -/
def restoreErr (env : EVCity) (acc : LoopAcc) (stations : List EV_Charger) :
    EVCity :=
  { env with
    charging_stations := stations,
    transformers := acc.transformers,
    total_evs_spawned := acc.total_evs_spawned,
    current_ev_departed := acc.current_ev_departed,
    current_ev_arrived := acc.current_ev_arrived,
    EVs := acc.EVs,
    empty_ports_at_end_of_simulation := acc.empty_ports_flag }

/-- Result of a successful `EVCity.step`, keeping also the internal totals
(`total_costs` and `user_satisfaction_list`) the source computes along the
way. -/
structure StepResult where
  env : EVCity
  observation : List ℚ
  reward : ℚ
  done : Bool
  satisfactions : List ℚ
  total_costs : ℚ

/-- `EVCity.step` (`ev_city.py` lines 221-355), with the internal per-step
totals exposed in the result.  Randomness is the oracle stream `rng`; the
abstract station behaviour is `f`.  An error result carries the engine state
at the moment the corresponding Python exception is raised. -/
def EVCity.stepCore (f : CSStep) (env : EVCity) (actions : List ℚ)
    (rng : Nat → SpawnRand) : Except (EngineError × EVCity) StepResult :=
  if env.done then .error (.episodeDone, env)
  else
    match stationLoop f (mkCfg env) actions rng env.charging_stations 0
        (initAcc env) with
    | .error (e, acc, rest) =>
      .error (e, restoreErr env acc (acc.stations_done ++ rest))
    | .ok acc =>
      match profilePhase (mkCfg env) env.ev_profiles acc.stations_done acc with
      | .error (e, acc1, stations1) => .error (e, restoreErr env acc1 stations1)
      | .ok (stations1, acc1) =>
        let env1 := { env with
          charging_stations := stations1,
          transformers := acc1.transformers,
          current_step := env.current_step + 1,
          total_evs_spawned := acc1.total_evs_spawned,
          current_ev_departed := acc1.current_ev_departed,
          current_ev_arrived := acc1.current_ev_arrived,
          current_evs_parked := env.current_evs_parked
            + (acc1.current_ev_arrived : Int) - (acc1.current_ev_departed : Int),
          EVs := acc1.EVs,
          empty_ports_at_end_of_simulation := acc1.empty_ports_flag }
        if env.simulate_grid then .error (.gridUnimplemented, env1)
        else
          let reward := calculate_reward acc1.total_costs acc1.user_satisfaction_list
          let d : Bool :=
            decide (env.simulation_length ≤ env1.current_step)
            || acc1.user_satisfaction_list.any (fun s => decide (s < env.score_threshold))
            || (env1.transformers.any Transformer.is_overloaded
                && !env.generate_rnd_game)
          let env2 := if d then { env1 with done := true } else env1
          .ok { env := env2, observation := env2.get_observation,
                reward := reward, done := d,
                satisfactions := acc1.user_satisfaction_list,
                total_costs := acc1.total_costs }

/-- The public `step` signature: next state, observation, reward and done
flag. -/
def EVCity.step (f : CSStep) (env : EVCity) (actions : List ℚ)
    (rng : Nat → SpawnRand) :
    Except (EngineError × EVCity) (EVCity × List ℚ × ℚ × Bool) :=
  (env.stepCore f actions rng).map (fun s => (s.env, s.observation, s.reward, s.done))

/-- Error kind of a step outcome, `none` on success. -/
def errKind (r : Except (EngineError × EVCity) StepResult) : Option EngineError :=
  match r with
  | .error (e, _) => some e
  | .ok _ => none

/-- Engine state carried by a failed step outcome. -/
def errEnv (r : Except (EngineError × EVCity) StepResult) : Option EVCity :=
  match r with
  | .error (_, env) => some env
  | .ok _ => none

/-- Successful result of a step outcome, with a fallback for the error case;
used to name concrete step results. -/
def okResult (r : Except (EngineError × EVCity) StepResult) (d : StepResult) :
    StepResult :=
  match r with
  | .ok s => s
  | .error _ => d

/-- Per-transformer power total: the sum of `current_power_output` over the
stations whose `connected_transformer` equals `k`. -/
def powerSum (k : Nat) (l : List EV_Charger) : ℚ :=
  ((l.filter (fun cs => cs.connected_transformer == k)).map
    (fun cs => cs.current_power_output)).sum

/-- The station as it stands right after its `cs.step` call inside the loop:
the station applied to its action slice and this step's prices. -/
def steppedStation (f : CSStep) (cfg : StepCfg) (actions : List ℚ) (pc : Nat)
    (cs : EV_Charger) : EV_Charger :=
  (f cs ((actions.drop pc).take cs.n_ports)
    (cfg.charge_prices cs.id cfg.current_step)
    (cfg.discharge_prices cs.id cfg.current_step)).1

/-- Range and shape properties of an EV spawned by the random mode at engine
step `t`. -/
def GoodSpawn (t : Nat) (ev : EV) : Prop :=
  1 ≤ ev.battery_capacity_at_arrival ∧ ev.battery_capacity_at_arrival < 49 ∧
  ev.time_of_arrival = t + 1 ∧
  t + 1 + 7 ≤ ev.earlier_time_of_departure ∧
  ev.earlier_time_of_departure < t + 1 + 15

/-- Effect of one successful station-loop iteration on the loop state: one
station appended, the port counter advanced by the station's port count, the
stepped station's power fed into its transformer, and `newEVs` (at most one)
spawned subject to the random-mode guards.  `stepped` is the station right
after its `cs.step` call; `cs2` is the station as stored (after a possible
spawn). -/
def BodyEffect (cfg : StepCfg) (r : SpawnRand) (acc acc' : LoopAcc)
    (cs stepped cs2 : EV_Charger) (newEVs : List EV) : Prop :=
  acc'.stations_done = acc.stations_done ++ [cs2] ∧
  acc'.port_counter = acc.port_counter + cs.n_ports ∧
  acc'.transformers.length = acc.transformers.length ∧
  acc'.empty_ports_flag = acc.empty_ports_flag ∧
  acc'.total_evs_spawned = acc.total_evs_spawned + newEVs.length ∧
  acc'.current_ev_arrived = acc.current_ev_arrived + newEVs.length ∧
  acc'.EVs = (if cfg.save_replay then acc.EVs ++ newEVs else acc.EVs) ∧
  newEVs.length ≤ 1 ∧
  cs2.connected_transformer = stepped.connected_transformer ∧
  cs2.current_power_output = stepped.current_power_output ∧
  cs2.id = stepped.id ∧
  cs2.n_ports = stepped.n_ports ∧
  (∀ k : Nat, k ≠ stepped.connected_transformer →
    acc'.transformers[k]? = acc.transformers[k]?) ∧
  ((acc'.transformers[stepped.connected_transformer]?).map
      (fun t => t.current_power)
    = (acc.transformers[stepped.connected_transformer]?).map
        (fun t => t.current_power + stepped.current_power_output)) ∧
  (∀ k : Nat, (acc'.transformers[k]?).map (fun t => t.max_power)
    = (acc.transformers[k]?).map (fun t => t.max_power)) ∧
  (∀ ev ∈ newEVs, ev.location = stepped.id ∧
    ev.battery_capacity_at_arrival = r.battery ∧
    ev.time_of_arrival = cfg.current_step + 1 ∧
    ev.earlier_time_of_departure = cfg.current_step + 1 + r.stay) ∧
  (newEVs ≠ [] → stepped.n_evs_connected < cs.n_ports) ∧
  (acc.empty_ports_flag = true → cfg.random_mode = true →
    cfg.simulation_length ≤ cfg.current_step + 1 + 15 → newEVs = [])

/-- Concrete station used in the examples: one free port on transformer 0. -/
def csW0 : EV_Charger :=
  { id := 0, connected_transformer := 0, n_ports := 1, evs_connected := [none],
    current_power_output := 2 }

/-- Second concrete station used in the examples. -/
def csW1 : EV_Charger :=
  { id := 1, connected_transformer := 0, n_ports := 1, evs_connected := [none],
    current_power_output := 3 }

/-- Concrete transformer used in the examples, with a nonzero accumulator left
over from an earlier step. -/
def trW : Transformer := { id := 0, max_power := 100, current_power := 7 }

/-- Baseline concrete engine used by the examples: two one-port stations on one
transformer, random spawn mode, no grid. -/
def envW : EVCity :=
  { generate_rnd_game := false, empty_ports_at_end_of_simulation := false,
    save_replay := true, simulate_grid := false, simulation_length := 20,
    score_threshold := 1, timescale := 5, cs := 2,
    charge_prices := fun _ _ => -1, discharge_prices := fun _ _ => 1,
    transformers := [trW], charging_stations := [csW0, csW1],
    ev_profiles := none, current_step := 0, total_evs_spawned := 0,
    current_ev_departed := 0, current_ev_arrived := 0, current_evs_parked := 0,
    done := false, EVs := [] }

/-- The baseline engine after its episode has terminated. -/
def envDone : EVCity := { envW with done := true }

/-- The baseline engine with a simulation length below the fixed 15-step
maximum EV stay. -/
def envShort : EVCity := { envW with simulation_length := 3 }

/-- A degenerate engine with no charging stations and a simulation length
below the maximum EV stay. -/
def envZero : EVCity :=
  { envW with charging_stations := [], cs := 0, simulation_length := 3 }

/-- An EV already occupying the only port of the profile-mode example. -/
def evFull : EV :=
  { location := 0, battery_capacity_at_arrival := 5, time_of_arrival := 0,
    earlier_time_of_departure := 9 }

/-- A profile EV arriving at step 1 at the already-full station 0. -/
def evProf : EV :=
  { location := 0, battery_capacity_at_arrival := 6, time_of_arrival := 1,
    earlier_time_of_departure := 9 }

/-- Profile-mode engine whose single station is full while the profile
schedules another arrival for the next step. -/
def envProf : EVCity :=
  { envW with
    cs := 1,
    charging_stations := [{ csW0 with evs_connected := [some evFull] }],
    ev_profiles := some [evProf] }

/-- A draw below the spawn threshold. -/
def srW : SpawnRand := { rand := mkRat 1 2, battery := 10, stay := 8 }

/-- A draw above the spawn threshold. -/
def srNo : SpawnRand := { rand := mkRat 9 10, battery := 10, stay := 8 }

/-- Random oracle below the spawn threshold: a spawn occurs whenever the
guards allow it. -/
def rngW : Nat → SpawnRand := fun _ => srW

/-- Random oracle above the spawn threshold: no spawn ever occurs. -/
def rngNo : Nat → SpawnRand := fun _ => srNo

/-- Fallback step result for naming concrete results of successful steps. -/
def dummyResult : StepResult :=
  { env := envW, observation := [], reward := 0, done := false,
    satisfactions := [], total_costs := 0 }

/-- The concrete result of stepping the baseline engine without spawns. -/
def sW1 : StepResult :=
  okResult (EVCity.stepCore trivialCS envW [0, 0] rngNo) dummyResult

/-- The concrete result of stepping the baseline engine with spawns. -/
def sW9 : StepResult :=
  okResult (EVCity.stepCore trivialCS envW [0, 0] rngW) dummyResult

/-! ### Helper lemmas -/

/-- The draw `srW` satisfies the numpy range contract. -/
theorem srW_valid : srW.Valid := by decide

/-- The trivial station behaviour satisfies the structural contract. -/
theorem trivialCS_ok : CSStepOK trivialCS :=
  fun _ _ _ _ => ⟨rfl, rfl, rfl, rfl⟩

/-- A port list with fewer occupied slots than slots has a free slot for the
first-free-port assignment. -/
theorem placeFirstFree_isSome (ev : EV) (ports : List (Option EV)) :
    ports.countP (fun o => o.isSome) < ports.length →
    ∃ l, placeFirstFree ports ev = some l := by
  induction ports with
  | nil => intro h; simp at h
  | cons o rest ih =>
    intro h
    cases o with
    | none => exact ⟨some ev :: rest, rfl⟩
    | some e =>
      simp [List.countP_cons] at h
      obtain ⟨l, hl⟩ := ih (by omega)
      exact ⟨some e :: l, by simp [placeFirstFree, hl]⟩

/-- First-free-port assignment preserves the number of slots. -/
theorem placeFirstFree_length (ev : EV) (ports : List (Option EV)) :
    ∀ l, placeFirstFree ports ev = some l → l.length = ports.length := by
  induction ports with
  | nil => intro l h; simp [placeFirstFree] at h
  | cons o rest ih =>
    intro l h
    cases o with
    | none =>
      simp only [placeFirstFree, Option.some_inj] at h
      subst h; simp
    | some e =>
      simp only [placeFirstFree] at h
      obtain ⟨l0, hl0, h2⟩ := Option.map_eq_some'.mp h
      subst h2
      simp [ih l0 hl0]

/-- A successful spawn changes only the port occupancy of the station. -/
theorem spawn_ev_some_fields (cs : EV_Charger) (ev : EV) (cs' : EV_Charger)
    (h : cs.spawn_ev ev = some cs') :
    cs'.id = cs.id ∧ cs'.connected_transformer = cs.connected_transformer ∧
    cs'.n_ports = cs.n_ports ∧
    cs'.current_power_output = cs.current_power_output ∧
    cs'.evs_connected.length = cs.evs_connected.length := by
  unfold EV_Charger.spawn_ev at h
  obtain ⟨ps, hps, h2⟩ := Option.map_eq_some'.mp h
  subst h2
  exact ⟨rfl, rfl, rfl, rfl, placeFirstFree_length ev _ ps hps⟩

/-- Spawning succeeds on a station with a free port. -/
theorem spawn_ev_isSome (cs : EV_Charger) (ev : EV)
    (h : cs.n_evs_connected < cs.evs_connected.length) :
    ∃ cs', cs.spawn_ev ev = some cs' := by
  obtain ⟨l, hl⟩ := placeFirstFree_isSome ev cs.evs_connected h
  refine ⟨{ cs with evs_connected := l }, ?_⟩
  unfold EV_Charger.spawn_ev
  rw [hl]
  rfl

/-- A station whose action slice cannot be filled fails with the modelled
action-length precondition of the station step, before any mutation. -/
theorem stationBody_short (f : CSStep) (cfg : StepCfg) (actions : List ℚ)
    (r : SpawnRand) (acc : LoopAcc) (cs : EV_Charger)
    (h : actions.length < acc.port_counter + cs.n_ports)
    (hpos : 0 < cs.n_ports) :
    stationBody f cfg actions r acc cs = .error (.actionLength, acc, cs) := by
  have hc : ((actions.drop acc.port_counter).take cs.n_ports).length
      < cs.n_ports := by
    simp only [List.length_take, List.length_drop]
    omega
  simp only [stationBody]
  rw [if_pos hc]

/-- A no-spawn iteration realizes the loop-body effect with no new EVs. -/
theorem bodyEffect_noSpawn (cfg : StepCfg) (r : SpawnRand) (acc : LoopAcc)
    (cs stepped : EV_Charger) (tr : Transformer) (costs : ℚ) (us : List ℚ)
    (hget : acc.transformers[stepped.connected_transformer]? = some tr) :
    BodyEffect cfg r acc
      { port_counter := acc.port_counter + cs.n_ports,
        total_costs := acc.total_costs + costs,
        user_satisfaction_list := acc.user_satisfaction_list ++ us,
        transformers := acc.transformers.set stepped.connected_transformer
          (tr.step stepped.current_power_output),
        stations_done := acc.stations_done ++ [stepped],
        total_evs_spawned := acc.total_evs_spawned,
        current_ev_departed := acc.current_ev_departed + us.length,
        current_ev_arrived := acc.current_ev_arrived,
        EVs := acc.EVs,
        empty_ports_flag := acc.empty_ports_flag }
      cs stepped stepped [] := by
  have hlt : stepped.connected_transformer < acc.transformers.length :=
    (List.getElem?_eq_some.mp hget).1
  unfold BodyEffect
  refine ⟨rfl, rfl, by simp, rfl, by simp, by simp, by simp, by simp,
    rfl, rfl, rfl, rfl, ?_, ?_, ?_, by simp, by simp, fun _ _ _ => rfl⟩
  · intro k hk
    exact List.getElem?_set_ne (Ne.symm hk)
  · rw [List.getElem?_set_eq_of_lt _ hlt, hget]
    rfl
  · intro k
    by_cases hk : k = stepped.connected_transformer
    · subst hk
      rw [List.getElem?_set_eq_of_lt _ hlt, hget]
      rfl
    · rw [List.getElem?_set_ne (Ne.symm hk)]

/-- A spawning iteration realizes the loop-body effect with one new EV. -/
theorem bodyEffect_spawn (cfg : StepCfg) (r : SpawnRand) (acc : LoopAcc)
    (cs stepped cs2 : EV_Charger) (tr : Transformer) (costs : ℚ) (us : List ℚ)
    (ev : EV)
    (hget : acc.transformers[stepped.connected_transformer]? = some tr)
    (hsp : stepped.spawn_ev ev = some cs2)
    (hev : ev =
      { location := stepped.id,
        battery_capacity_at_arrival := r.battery,
        time_of_arrival := cfg.current_step + 1,
        earlier_time_of_departure := cfg.current_step + 1 + r.stay })
    (hfree : stepped.n_evs_connected < cs.n_ports)
    (hguard : ¬(acc.empty_ports_flag = true ∧
      cfg.simulation_length ≤ cfg.current_step + 1 + 15)) :
    BodyEffect cfg r acc
      { port_counter := acc.port_counter + cs.n_ports,
        total_costs := acc.total_costs + costs,
        user_satisfaction_list := acc.user_satisfaction_list ++ us,
        transformers := acc.transformers.set stepped.connected_transformer
          (tr.step stepped.current_power_output),
        stations_done := acc.stations_done ++ [cs2],
        total_evs_spawned := acc.total_evs_spawned + 1,
        current_ev_departed := acc.current_ev_departed + us.length,
        current_ev_arrived := acc.current_ev_arrived + 1,
        EVs := if cfg.save_replay then acc.EVs ++ [ev] else acc.EVs,
        empty_ports_flag := acc.empty_ports_flag }
      cs stepped cs2 [ev] := by
  have hlt : stepped.connected_transformer < acc.transformers.length :=
    (List.getElem?_eq_some.mp hget).1
  obtain ⟨hid, hct, hnp, hpw, hlen⟩ := spawn_ev_some_fields stepped ev cs2 hsp
  unfold BodyEffect
  refine ⟨rfl, rfl, by simp, rfl, rfl, rfl, rfl, by simp,
    hct, hpw, hid, hnp, ?_, ?_, ?_, ?_, fun _ => hfree, ?_⟩
  · intro k hk
    exact List.getElem?_set_ne (Ne.symm hk)
  · rw [List.getElem?_set_eq_of_lt _ hlt, hget]
    rfl
  · intro k
    by_cases hk : k = stepped.connected_transformer
    · subst hk
      rw [List.getElem?_set_eq_of_lt _ hlt, hget]
      rfl
    · rw [List.getElem?_set_ne (Ne.symm hk)]
  · intro e he
    rw [List.mem_singleton] at he
    subst he
    rw [hev]
    exact ⟨rfl, rfl, rfl, rfl⟩
  · intro hflag hrm hsim
    exact absurd ⟨hflag, hsim⟩ hguard

/-- Inversion of a successful loop-body iteration: the effect predicate holds
for the station right after its `cs.step` call and the at-most-one spawned
EV. -/
theorem stationBody_ok (f : CSStep) (cfg : StepCfg) (actions : List ℚ)
    (r : SpawnRand) (acc : LoopAcc) (cs : EV_Charger) (acc' : LoopAcc)
    (h : stationBody f cfg actions r acc cs = .ok acc') :
    ∃ cs2 newEVs, BodyEffect cfg r acc acc' cs
      (steppedStation f cfg actions acc.port_counter cs) cs2 newEVs := by
  simp only [stationBody] at h
  split at h
  · exact absurd h (by simp)
  split at h
  · exact absurd h (by simp)
  next tr hget =>
    split at h
    next hrm =>
      split at h
      · exact absurd h (by simp)
      next hsiml =>
        split at h
        next hguard =>
          split at h
          next hrand =>
            split at h
            · exact absurd h (by simp)
            next cs2 hsp =>
              replace h := Except.ok.inj h
              subst h
              refine ⟨cs2, _, bodyEffect_spawn cfg r acc cs _ cs2 tr _ _ _
                hget hsp rfl ?_ ?_⟩
              · have hg := hguard
                simp only [Bool.and_eq_true, decide_eq_true_eq] at hg
                exact hg.2
              · rintro ⟨hflag, hsim⟩
                have hg := hguard
                simp only [Bool.and_eq_true, Bool.not_eq_true'] at hg
                rw [hflag, decide_eq_true hsim] at hg
                simp at hg
          next hrand =>
            replace h := Except.ok.inj h
            subst h
            exact ⟨_, [], bodyEffect_noSpawn cfg r acc cs _ tr _ _ hget⟩
        next hguard =>
          replace h := Except.ok.inj h
          subst h
          exact ⟨_, [], bodyEffect_noSpawn cfg r acc cs _ tr _ _ hget⟩
    next hrm =>
      replace h := Except.ok.inj h
      subst h
      exact ⟨_, [], bodyEffect_noSpawn cfg r acc cs _ tr _ _ hget⟩

/-- Per-transformer power of a cons: the head contributes iff it is assigned
to transformer `k`. -/
theorem powerSum_cons (k : Nat) (x : EV_Charger) (rest : List EV_Charger) :
    powerSum k (x :: rest)
      = (if x.connected_transformer = k then x.current_power_output else 0)
        + powerSum k rest := by
  by_cases h : x.connected_transformer = k <;>
    simp [powerSum, List.filter_cons, h]

/-- Per-transformer power is additive over concatenation. -/
theorem powerSum_append (k : Nat) (a b : List EV_Charger) :
    powerSum k (a ++ b) = powerSum k a + powerSum k b := by
  simp [powerSum, List.filter_append]

/-- Replacing a station by one with the same transformer assignment and the
same power output leaves every per-transformer power total unchanged. -/
theorem powerSum_set (k : Nat) (l : List EV_Charger) :
    ∀ (i : Nat) (cs cs' : EV_Charger), l[i]? = some cs →
      cs'.connected_transformer = cs.connected_transformer →
      cs'.current_power_output = cs.current_power_output →
      powerSum k (l.set i cs') = powerSum k l := by
  induction l with
  | nil => intro i cs cs' hget; simp at hget
  | cons a rest ih =>
    intro i cs cs' hget hct hpw
    cases i with
    | zero =>
      simp only [List.getElem?_cons_zero, Option.some_inj] at hget
      subst hget
      rw [List.set_cons_zero, powerSum_cons, powerSum_cons, hct, hpw]
    | succ n =>
      simp only [List.getElem?_cons_succ] at hget
      rw [List.set_cons_succ, powerSum_cons, powerSum_cons,
        ih n cs cs' hget hct hpw]

/-- Effect of a successful station-loop pass: the processed stations are
appended in order, each transformer accumulates exactly the power of its newly
processed stations, and the spawned EVs obey the random-mode rules. -/
theorem stationLoop_ok (f : CSStep) (cfg : StepCfg) (actions : List ℚ)
    (rng : Nat → SpawnRand) :
    ∀ (stations : List EV_Charger) (i : Nat) (acc acc' : LoopAcc),
      stationLoop f cfg actions rng stations i acc = .ok acc' →
      ∃ newDone newEVs,
        acc'.stations_done = acc.stations_done ++ newDone ∧
        acc'.transformers.length = acc.transformers.length ∧
        acc'.empty_ports_flag = acc.empty_ports_flag ∧
        acc'.EVs = (if cfg.save_replay then acc.EVs ++ newEVs else acc.EVs) ∧
        acc'.current_ev_arrived = acc.current_ev_arrived + newEVs.length ∧
        (∀ k : Nat, (acc'.transformers[k]?).map (fun t => t.current_power)
          = (acc.transformers[k]?).map
              (fun t => t.current_power + powerSum k newDone)) ∧
        (∀ k : Nat, (acc'.transformers[k]?).map (fun t => t.max_power)
          = (acc.transformers[k]?).map (fun t => t.max_power)) ∧
        ((∀ j, (rng j).Valid) → ∀ ev ∈ newEVs, GoodSpawn cfg.current_step ev) ∧
        (CSStepOK f → (newEVs.map (fun ev => ev.location)).Sublist
          (stations.map (fun cs => cs.id))) ∧
        (cfg.random_mode = true → acc.empty_ports_flag = true →
          cfg.simulation_length ≤ cfg.current_step + 1 + 15 → newEVs = []) := by
  intro stations
  induction stations with
  | nil =>
    intro i acc acc' h
    unfold stationLoop at h
    have h' : acc = acc' := Except.ok.inj h
    subst h'
    refine ⟨[], [], by simp, rfl, rfl, by simp, by simp, ?_, fun _ => rfl,
      by simp, by simp, fun _ _ _ => rfl⟩
    intro k
    cases hk : acc.transformers[k]? <;> simp [powerSum]
  | cons cs rest ih =>
    intro i acc acc' h
    unfold stationLoop at h
    cases hb : stationBody f cfg actions (rng i) acc cs with
    | error e3 =>
      rw [hb] at h
      obtain ⟨e, acc2, cs3⟩ := e3
      exact absurd h (by simp)
    | ok acc1 =>
      rw [hb] at h
      dsimp only at h
      obtain ⟨nd, ne, h1, h2, h3, h4, h5, h6, h7, h8, h9, h10⟩ :=
        ih (i + 1) acc1 acc' h
      obtain ⟨cs2, ne0, e1, e2, e3, e4, e5, e6, e7, e8, e9, e10, e11, e12,
        e13, e14, e15, e16, e17, e18⟩ :=
        stationBody_ok f cfg actions (rng i) acc cs acc1 hb
      refine ⟨cs2 :: nd, ne0 ++ ne, ?_, ?_, ?_, ?_, ?_, ?_, ?_, ?_, ?_, ?_⟩
      · rw [h1, e1, List.append_assoc]
        rfl
      · rw [h2, e3]
      · rw [h3, e4]
      · rw [h4, e7]
        cases hsave : cfg.save_replay <;> simp
      · rw [h5, e6, List.length_append]
        omega
      · intro k
        rw [powerSum_cons]
        by_cases hk : cs2.connected_transformer = k
        · rw [if_pos hk, ← hk, e9, e10]
          have h6s := h6 ((steppedStation f cfg actions acc.port_counter
            cs).connected_transformer)
          cases hacc : acc.transformers[(steppedStation f cfg actions
              acc.port_counter cs).connected_transformer]? with
          | none =>
            have h14 := e14
            rw [hacc] at h14
            simp only [Option.map_none'] at h14
            have hn := Option.map_eq_none'.mp h14
            rw [hn] at h6s
            simpa using h6s
          | some t0 =>
            have he14 := e14
            rw [hacc] at he14
            simp only [Option.map_some'] at he14
            obtain ⟨t1, ht1, ht1pw⟩ := Option.map_eq_some'.mp he14
            rw [ht1] at h6s
            rw [h6s]
            simp only [Option.map_some']
            rw [ht1pw, add_assoc]
        · rw [if_neg hk]
          have hkne : k ≠ (steppedStation f cfg actions
              acc.port_counter cs).connected_transformer := by
            rw [← e9]
            exact fun hc => hk hc.symm
          have h6s := h6 k
          rw [e13 k hkne] at h6s
          rw [h6s]
          cases hacc : acc.transformers[k]? <;> simp
      · intro k
        have := h7 k
        rw [e15 k] at this
        exact this
      · intro hv ev hev
        rcases List.mem_append.mp hev with hin | hin
        · obtain ⟨hl, hbat, hta, htd⟩ := e16 ev hin
          obtain ⟨_, _, hb1, hb49, hs7, hs15⟩ := hv i
          refine ⟨?_, ?_, hta, ?_, ?_⟩
          · rw [hbat]; exact hb1
          · rw [hbat]; exact hb49
          · rw [htd]; omega
          · rw [htd]; omega
        · exact h8 hv ev hin
      · intro hf
        have hsub := h9 hf
        have hid : (steppedStation f cfg actions acc.port_counter cs).id
            = cs.id := (hf cs _ _ _).1
        cases ne0 with
        | nil =>
          simp only [List.nil_append, List.map_cons]
          exact hsub.cons _
        | cons ev tail =>
          have htail : tail = [] := by
            simp only [List.length_cons] at e8
            exact List.eq_nil_of_length_eq_zero (by omega)
          subst htail
          obtain ⟨hl, _, _, _⟩ := e16 ev (by simp)
          simp only [List.cons_append, List.nil_append, List.map_cons]
          rw [hl, hid]
          exact hsub.cons₂ _
      · intro hrm hflag hsim
        rw [h10 hrm (by rw [e4, hflag]) hsim, e18 hflag hrm hsim]
        rfl

/-- The profile-spawning phase leaves the transformers, the satisfaction list
and the cost total untouched, and preserves every per-transformer power total
over the stations. -/
theorem profileLoop_ok (cfg : StepCfg) :
    ∀ (evs : List EV) (stations : List EV_Charger) (acc : LoopAcc)
      (stations' : List EV_Charger) (acc' : LoopAcc),
      profileLoop cfg evs stations acc = .ok (stations', acc') →
      acc'.transformers = acc.transformers ∧
      acc'.user_satisfaction_list = acc.user_satisfaction_list ∧
      acc'.total_costs = acc.total_costs ∧
      (∀ k : Nat, powerSum k stations' = powerSum k stations) := by
  intro evs
  induction evs with
  | nil =>
    intro stations acc st' acc' h
    unfold profileLoop at h
    have h' := Except.ok.inj h
    have h1 : stations = st' := congrArg Prod.fst h'
    have h2 : acc = acc' := congrArg Prod.snd h'
    subst h1
    subst h2
    exact ⟨rfl, rfl, rfl, fun _ => rfl⟩
  | cons ev rest ih =>
    intro stations acc st' acc' h
    unfold profileLoop at h
    by_cases ha : ev.time_of_arrival = cfg.current_step + 1
    · rw [if_pos ha] at h
      cases hget : stations[ev.location]? with
      | none =>
        rw [hget] at h
        exact absurd h (by simp)
      | some cs =>
        rw [hget] at h
        dsimp only at h
        cases hsp : cs.spawn_ev ev.reset with
        | none =>
          rw [hsp] at h
          exact absurd h (by simp)
        | some cs1 =>
          rw [hsp] at h
          dsimp only at h
          obtain ⟨p1, p2, p3, p4⟩ := ih _ _ _ _ h
          obtain ⟨-, hct, -, hpw, -⟩ := spawn_ev_some_fields cs ev.reset cs1 hsp
          refine ⟨by rw [p1], by rw [p2], by rw [p3], ?_⟩
          intro k
          rw [p4 k, powerSum_set k stations ev.location cs cs1 hget hct hpw]
    · rw [if_neg ha] at h
      by_cases hb : cfg.current_step + 1 < ev.time_of_arrival
      · rw [if_pos hb] at h
        have h' := Except.ok.inj h
        have h1 : stations = st' := congrArg Prod.fst h'
        have h2 : acc = acc' := congrArg Prod.snd h'
        subst h1
        subst h2
        exact ⟨rfl, rfl, rfl, fun _ => rfl⟩
      · rw [if_neg hb] at h
        exact ih _ _ _ _ h

/-- In random mode a well-formed station body never raises the capacity
error: the spawn guard guarantees a free port, on which `spawn_ev`
succeeds. -/
theorem stationBody_no_capacity (f : CSStep) (cfg : StepCfg) (actions : List ℚ)
    (r : SpawnRand) (acc : LoopAcc) (cs : EV_Charger)
    (hf : CSStepOK f) (hwf : cs.WF)
    (e : EngineError) (acc1 : LoopAcc) (cs1 : EV_Charger)
    (h : stationBody f cfg actions r acc cs = .error (e, acc1, cs1)) :
    e ≠ .capacity := by
  intro hcap
  subst hcap
  simp only [stationBody] at h
  split at h
  · simp at h
  split at h
  · simp at h
  next tr hget =>
    split at h
    next hrm =>
      split at h
      · simp at h
      next hsiml =>
        split at h
        next hguard =>
          split at h
          next hrand =>
            split at h
            next hsp =>
              have hg := hguard
              simp only [Bool.and_eq_true, decide_eq_true_eq] at hg
              have hlen := (hf cs ((actions.drop acc.port_counter).take
                cs.n_ports) (cfg.charge_prices cs.id cfg.current_step)
                (cfg.discharge_prices cs.id cfg.current_step)).2.2.2
              obtain ⟨cs', hcs'⟩ := spawn_ev_isSome _ _
                (by rw [hlen, hwf]; exact hg.2)
              rw [hsp] at hcs'
              exact absurd hcs' (by simp)
            next cs2 hsp => simp at h
          next => simp at h
        next => simp at h
    next hrm => simp at h

/-- The station loop over well-formed stations never raises the capacity
error. -/
theorem stationLoop_no_capacity (f : CSStep) (cfg : StepCfg) (actions : List ℚ)
    (rng : Nat → SpawnRand) (hf : CSStepOK f) :
    ∀ (stations : List EV_Charger) (i : Nat) (acc : LoopAcc),
      (∀ cs ∈ stations, cs.WF) →
      ∀ (e : EngineError) (acc1 : LoopAcc) (rest1 : List EV_Charger),
        stationLoop f cfg actions rng stations i acc = .error (e, acc1, rest1) →
        e ≠ .capacity := by
  intro stations
  induction stations with
  | nil =>
    intro i acc hwf e acc1 rest1 h
    unfold stationLoop at h
    simp at h
  | cons cs rest ih =>
    intro i acc hwf e acc1 rest1 h
    unfold stationLoop at h
    cases hb : stationBody f cfg actions (rng i) acc cs with
    | error e3 =>
      obtain ⟨e0, acc0, cs0⟩ := e3
      rw [hb] at h
      dsimp only at h
      simp only [Except.error.injEq, Prod.mk.injEq] at h
      obtain ⟨he, -, -⟩ := h
      subst he
      exact stationBody_no_capacity f cfg actions (rng i) acc cs hf
        (hwf cs (List.mem_cons_self _ _)) e0 acc0 cs0 hb
    | ok accn =>
      rw [hb] at h
      dsimp only at h
      exact ih (i + 1) accn
        (fun c hc => hwf c (List.mem_cons_of_mem _ hc)) e acc1 rest1 h

/-- Setting a position of a list to the element it already holds is the
identity. -/
theorem set_get_self {α : Type} : ∀ (l : List α) (i : Nat) (h : i < l.length),
    l.set i (l.get ⟨i, h⟩) = l := by
  intro l
  induction l with
  | nil => intro i h; simp at h
  | cons a rest ih =>
    intro i h
    cases i with
    | zero => rfl
    | succ n =>
      simp only [List.length_cons, Nat.add_lt_add_iff_right] at h
      simp only [List.set_cons_succ, List.get_cons_succ]
      rw [ih n h]

/-- Under the structural station contract, a station whose slice can be
filled, whose transformer index is in range and which cannot trip the
max-stay check steps successfully, advancing the port counter by its port
count and preserving the transformer count. -/
theorem stationBody_ok_of (f : CSStep) (cfg : StepCfg) (actions : List ℚ)
    (r : SpawnRand) (acc : LoopAcc) (cs : EV_Charger)
    (hf : CSStepOK f) (hwf : cs.WF)
    (hct : cs.connected_transformer < acc.transformers.length)
    (hrm : cfg.random_mode = true → 15 ≤ cfg.simulation_length)
    (hlen : acc.port_counter + cs.n_ports ≤ actions.length) :
    ∃ acc', stationBody f cfg actions r acc cs = .ok acc' ∧
      acc'.port_counter = acc.port_counter + cs.n_ports ∧
      acc'.transformers.length = acc.transformers.length := by
  cases hb : stationBody f cfg actions r acc cs with
  | ok acc' =>
    obtain ⟨cs2, ne0, e1, e2, e3, hrest⟩ :=
      stationBody_ok f cfg actions r acc cs acc' hb
    exact ⟨acc', rfl, e2, e3⟩
  | error e3 =>
    exfalso
    obtain ⟨e0, acc0, cs0⟩ := e3
    have hslice : ¬ (((actions.drop acc.port_counter).take cs.n_ports).length
        < cs.n_ports) := by
      simp only [List.length_take, List.length_drop]
      omega
    simp only [stationBody] at hb
    rw [if_neg hslice] at hb
    cases hget : acc.transformers[(f cs ((actions.drop
        acc.port_counter).take cs.n_ports)
        (cfg.charge_prices cs.id cfg.current_step)
        (cfg.discharge_prices cs.id cfg.current_step)).1.connected_transformer]?
        with
    | none =>
      have hcteq := (hf cs ((actions.drop acc.port_counter).take cs.n_ports)
        (cfg.charge_prices cs.id cfg.current_step)
        (cfg.discharge_prices cs.id cfg.current_step)).2.1
      rw [List.getElem?_eq_none_iff, hcteq] at hget
      omega
    | some tr =>
      rw [hget] at hb
      dsimp only at hb
      split at hb
      next hrm2 =>
        rw [if_neg (by have := hrm hrm2; omega :
          ¬ 15 > cfg.simulation_length)] at hb
        split at hb
        next hguard =>
          split at hb
          next hrand =>
            cases hsp : (f cs ((actions.drop acc.port_counter).take cs.n_ports)
                (cfg.charge_prices cs.id cfg.current_step)
                (cfg.discharge_prices cs.id cfg.current_step)).1.spawn_ev
                { location := (f cs ((actions.drop acc.port_counter).take
                    cs.n_ports) (cfg.charge_prices cs.id cfg.current_step)
                    (cfg.discharge_prices cs.id cfg.current_step)).1.id,
                  battery_capacity_at_arrival := r.battery,
                  time_of_arrival := cfg.current_step + 1,
                  earlier_time_of_departure := cfg.current_step + 1 + r.stay }
                with
            | none =>
              have hg := hguard
              simp only [Bool.and_eq_true, decide_eq_true_eq] at hg
              have hlen2 := (hf cs ((actions.drop acc.port_counter).take
                cs.n_ports) (cfg.charge_prices cs.id cfg.current_step)
                (cfg.discharge_prices cs.id cfg.current_step)).2.2.2
              obtain ⟨cs', hcs'⟩ := spawn_ev_isSome _ _
                (by rw [hlen2, hwf]; exact hg.2)
              rw [hsp] at hcs'
              exact absurd hcs' (by simp)
            | some cs2 =>
              rw [hsp] at hb
              simp at hb
          next hrand => simp at hb
        next hguard => simp at hb
      next hrm2 => simp at hb

/-- An action vector too short for the remaining stations drives the loop
into the action-length error. -/
theorem stationLoop_short (f : CSStep) (cfg : StepCfg) (actions : List ℚ)
    (rng : Nat → SpawnRand) (hf : CSStepOK f)
    (hrm : cfg.random_mode = true → 15 ≤ cfg.simulation_length) :
    ∀ (stations : List EV_Charger) (i : Nat) (acc : LoopAcc),
      (∀ cs ∈ stations, cs.WF) →
      (∀ cs ∈ stations, cs.connected_transformer < acc.transformers.length) →
      acc.port_counter ≤ actions.length →
      actions.length
        < acc.port_counter + (stations.map (fun cs => cs.n_ports)).sum →
      ∃ acc1 rest1, stationLoop f cfg actions rng stations i acc
        = .error (.actionLength, acc1, rest1) := by
  intro stations
  induction stations with
  | nil =>
    intro i acc hwf hct hpc hsum
    simp at hsum
    omega
  | cons cs rest ih =>
    intro i acc hwf hct hpc hsum
    simp only [List.map_cons, List.sum_cons] at hsum
    by_cases hshort : actions.length < acc.port_counter + cs.n_ports
        ∧ 0 < cs.n_ports
    · refine ⟨acc, cs :: rest, ?_⟩
      unfold stationLoop
      rw [stationBody_short f cfg actions (rng i) acc cs hshort.1 hshort.2]
    · have hok : acc.port_counter + cs.n_ports ≤ actions.length := by
        rcases Nat.eq_zero_or_pos cs.n_ports with h0 | hpos
        · omega
        · have hA : ¬ actions.length < acc.port_counter + cs.n_ports :=
            fun hA => hshort ⟨hA, hpos⟩
          omega
      obtain ⟨acc1, hb, hpc1, hlen1⟩ := stationBody_ok_of f cfg actions (rng i)
        acc cs hf (hwf cs (List.mem_cons_self _ _))
        (hct cs (List.mem_cons_self _ _)) hrm hok
      obtain ⟨acc2, rest2, hloop⟩ := ih (i + 1) acc1
        (fun c hc => hwf c (List.mem_cons_of_mem _ hc))
        (fun c hc => by rw [hlen1]; exact hct c (List.mem_cons_of_mem _ hc))
        (by omega)
        (by omega)
      refine ⟨acc2, rest2, ?_⟩
      unfold stationLoop
      rw [hb]
      dsimp only
      exact hloop

/-- Feeding one power value into position `i` of the zeroed transformer list:
the per-transformer power image is the all-zero list with position `i` set,
and the capacity image is unchanged. -/
theorem transformers_feed_maps (l : List Transformer) :
    ∀ (i : Nat)
      (h : i < (l.map (fun t => { t with current_power := 0 })).length)
      (p : ℚ),
      (((l.map (fun t => { t with current_power := 0 })).set i
          (Transformer.step ((l.map
            (fun t => { t with current_power := 0 })).get ⟨i, h⟩) p)).map
              (fun t => t.current_power)
        = (l.map (fun t => (0 : ℚ))).set i (0 + p)) ∧
      (((l.map (fun t => { t with current_power := 0 })).set i
          (Transformer.step ((l.map
            (fun t => { t with current_power := 0 })).get ⟨i, h⟩) p)).map
              (fun t => t.max_power)
        = l.map (fun t => t.max_power)) := by
  induction l with
  | nil => intro i h; simp at h
  | cons a rest ih =>
    intro i h p
    cases i with
    | zero =>
      constructor
      · simp only [List.map_cons, List.set_cons_zero, List.get_cons_zero,
          List.map_map]
        exact List.cons_eq_cons.mpr ⟨rfl, rfl⟩
      · simp only [List.map_cons, List.set_cons_zero, List.get_cons_zero,
          List.map_map]
        exact List.cons_eq_cons.mpr ⟨rfl, rfl⟩
    | succ n =>
      have h' : n < (rest.map
          (fun t => { t with current_power := 0 })).length := by
        simp only [List.length_map, List.length_cons] at h ⊢
        omega
      constructor
      · simp only [List.map_cons, List.set_cons_succ, List.get_cons_succ]
        rw [(ih n h' p).1]
      · simp only [List.map_cons, List.set_cons_succ, List.get_cons_succ]
        rw [(ih n h' p).2]

/-- Characterization of the max-stay configuration error: on a random-mode
engine with simulation length below 15 and at least one station, `step`
raises the error while processing the first station, after the transformer
accumulators were zeroed and the first station was stepped and its power fed
into its transformer, with the step counter not advanced, the done flag still
false, the end-of-simulation draining flag cleared, and no EV spawned. -/
theorem maxStay_raise (f : CSStep) (env : EVCity) (actions : List ℚ)
    (rng : Nat → SpawnRand) (cs0 : EV_Charger) (rest : List EV_Charger)
    (hdone : env.done = false) (hprof : env.ev_profiles = none)
    (hcs : env.charging_stations = cs0 :: rest)
    (hsim : env.simulation_length < 15)
    (hlen : cs0.n_ports ≤ actions.length)
    (hct : (steppedStation f (mkCfg env) actions 0 cs0).connected_transformer
      < env.transformers.length) :
    ∃ envE, EVCity.stepCore f env actions rng
        = .error (.maxStayConfig, envE) ∧
      envE.current_step = env.current_step ∧
      envE.done = false ∧
      envE.total_evs_spawned = env.total_evs_spawned ∧
      envE.EVs = env.EVs ∧
      envE.charging_stations
        = steppedStation f (mkCfg env) actions 0 cs0 :: rest ∧
      envE.empty_ports_at_end_of_simulation = false ∧
      envE.transformers.map (fun t => t.current_power)
        = (env.transformers.map (fun t => (0 : ℚ))).set
            (steppedStation f (mkCfg env) actions 0 cs0).connected_transformer
            (steppedStation f (mkCfg env) actions 0 cs0).current_power_output ∧
      envE.transformers.map (fun t => t.max_power)
        = env.transformers.map (fun t => t.max_power) := by
  have hslice : ¬ (((actions.drop (0 : Nat)).take cs0.n_ports).length
      < cs0.n_ports) := by
    simp only [List.length_take, List.length_drop]
    omega
  have hlt : (steppedStation f (mkCfg env) actions 0 cs0).connected_transformer
      < (env.transformers.map
          (fun t => { t with current_power := 0 })).length := by
    simpa using hct
  have hget := List.getElem?_eq_getElem hlt
  simp only [steppedStation] at hget
  have hrmT : (mkCfg env).random_mode = true := by
    simp [mkCfg, hprof]
  have hsimT : 15 > (mkCfg env).simulation_length := by
    simpa [mkCfg] using hsim
  have heq : EVCity.stepCore f env actions rng = .error (.maxStayConfig,
      restoreErr env
        { port_counter := 0 + cs0.n_ports,
          total_costs := 0 + (f cs0 ((actions.drop 0).take cs0.n_ports)
            ((mkCfg env).charge_prices cs0.id (mkCfg env).current_step)
            ((mkCfg env).discharge_prices cs0.id (mkCfg env).current_step)).2.1,
          user_satisfaction_list := [] ++ (f cs0
            ((actions.drop 0).take cs0.n_ports)
            ((mkCfg env).charge_prices cs0.id (mkCfg env).current_step)
            ((mkCfg env).discharge_prices cs0.id (mkCfg env).current_step)).2.2,
          transformers := (env.transformers.map
              (fun t => { t with current_power := 0 })).set
            (steppedStation f (mkCfg env) actions 0 cs0).connected_transformer
            (Transformer.step ((env.transformers.map
                (fun t => { t with current_power := 0 })).get
                ⟨(steppedStation f (mkCfg env) actions 0
                  cs0).connected_transformer, hlt⟩)
              (steppedStation f (mkCfg env) actions 0
                cs0).current_power_output),
          stations_done := [],
          total_evs_spawned := env.total_evs_spawned,
          current_ev_departed := 0 + (f cs0 ((actions.drop 0).take cs0.n_ports)
            ((mkCfg env).charge_prices cs0.id (mkCfg env).current_step)
            ((mkCfg env).discharge_prices cs0.id
              (mkCfg env).current_step)).2.2.length,
          current_ev_arrived := 0,
          EVs := env.EVs,
          empty_ports_flag := false }
        (steppedStation f (mkCfg env) actions 0 cs0 :: rest)) := by
    unfold EVCity.stepCore
    rw [if_neg (by rw [hdone]; simp)]
    rw [hcs]
    unfold stationLoop
    simp only [stationBody, initAcc]
    rw [if_neg hslice, hget]
    dsimp only
    rw [if_pos hrmT, if_pos hsimT]
    rfl
  refine ⟨_, heq, rfl, hdone, rfl, rfl, rfl, rfl, ?_, ?_⟩
  · dsimp only [restoreErr]
    rw [(transformers_feed_maps env.transformers
      ((steppedStation f (mkCfg env) actions 0 cs0).connected_transformer)
      hlt ((steppedStation f (mkCfg env) actions 0
        cs0).current_power_output)).1, zero_add]
  · dsimp only [restoreErr]
    rw [(transformers_feed_maps env.transformers
      ((steppedStation f (mkCfg env) actions 0 cs0).connected_transformer)
      hlt ((steppedStation f (mkCfg env) actions 0
        cs0).current_power_output)).2]

/-- Inversion of a successful `stepCore`: the station loop and the profile
phase succeeded, the grid is off, and the returned record is assembled from
the final loop state. -/
theorem stepCore_ok_inv (f : CSStep) (env : EVCity) (actions : List ℚ)
    (rng : Nat → SpawnRand) (s : StepResult)
    (h : EVCity.stepCore f env actions rng = .ok s) :
    ∃ acc stations1 acc1,
      env.done = false ∧
      stationLoop f (mkCfg env) actions rng env.charging_stations 0 (initAcc env)
        = .ok acc ∧
      profilePhase (mkCfg env) env.ev_profiles acc.stations_done acc
        = .ok (stations1, acc1) ∧
      env.simulate_grid = false ∧
      s.satisfactions = acc1.user_satisfaction_list ∧
      s.total_costs = acc1.total_costs ∧
      s.reward = acc1.total_costs ∧
      s.env.charging_stations = stations1 ∧
      s.env.transformers = acc1.transformers ∧
      s.env.current_step = env.current_step + 1 ∧
      s.env.simulation_length = env.simulation_length ∧
      s.env.score_threshold = env.score_threshold ∧
      s.env.generate_rnd_game = env.generate_rnd_game ∧
      s.env.EVs = acc1.EVs ∧
      s.env.current_ev_arrived = acc1.current_ev_arrived ∧
      s.done = (decide (env.simulation_length ≤ env.current_step + 1)
        || acc1.user_satisfaction_list.any (fun x => decide (x < env.score_threshold))
        || (acc1.transformers.any Transformer.is_overloaded
            && !env.generate_rnd_game)) := by
  unfold EVCity.stepCore at h
  by_cases hdone : env.done = true
  · rw [if_pos hdone] at h
    exact absurd h (by simp)
  rw [if_neg hdone] at h
  cases hsl : stationLoop f (mkCfg env) actions rng env.charging_stations 0
      (initAcc env) with
  | error ear =>
    obtain ⟨e, acc2, rest⟩ := ear
    rw [hsl] at h
    exact absurd h (by simp)
  | ok acc =>
    rw [hsl] at h
    dsimp only at h
    cases hpp : profilePhase (mkCfg env) env.ev_profiles acc.stations_done acc with
    | error ear =>
      obtain ⟨e, acc2, rest⟩ := ear
      rw [hpp] at h
      exact absurd h (by simp)
    | ok pr =>
      obtain ⟨stations1, acc1⟩ := pr
      rw [hpp] at h
      dsimp only at h
      by_cases hgrid : env.simulate_grid = true
      · rw [if_pos hgrid] at h
        exact absurd h (by simp)
      rw [if_neg hgrid] at h
      replace h := Except.ok.inj h
      subst h
      refine ⟨acc, stations1, acc1, by simpa using hdone, rfl, hpp,
        by simpa using hgrid, ?_⟩
      cases hd : (decide (env.simulation_length ≤ env.current_step + 1)
        || acc1.user_satisfaction_list.any (fun x => decide (x < env.score_threshold))
        || (acc1.transformers.any Transformer.is_overloaded
            && !env.generate_rnd_game)) <;>
        simp_all [calculate_reward]

/-! ### Claims -/

/-- C1: for every `step` call on a RUNNING engine that returns a result, the
returned done flag is true iff, after the step counter advanced, it reached
the simulation length, or some satisfaction score of this step is below the
threshold, or some transformer is overloaded while random-game mode is off;
in particular a false flag bounds the step counter strictly by the simulation
length, so an episode lasts at most `simulation_length` steps. -/
theorem claim_C1 (f : CSStep) (env : EVCity) (actions : List ℚ)
    (rng : Nat → SpawnRand) (s : StepResult)
    (h : EVCity.stepCore f env actions rng = .ok s) :
    s.env.current_step = env.current_step + 1 ∧
    s.env.simulation_length = env.simulation_length ∧
    (s.done = true ↔
      (s.env.simulation_length ≤ s.env.current_step ∨
        (∃ x ∈ s.satisfactions, x < s.env.score_threshold) ∨
        ((∃ tr ∈ s.env.transformers, tr.is_overloaded = true) ∧
          s.env.generate_rnd_game = false))) ∧
    (s.done = false → s.env.current_step < s.env.simulation_length) := by
  obtain ⟨acc, st1, acc1, hdone, hsl, hpp, hgrid, hsat, htc, hrw, hst, htr,
    hstep, hsim, hthr, hrnd, hevs, harr, hdflag⟩ :=
    stepCore_ok_inv f env actions rng s h
  refine ⟨hstep, hsim, ?_, ?_⟩
  · rw [hdflag, hsat, hstep, hsim, hthr, hrnd, htr]
    simp only [Bool.or_eq_true, decide_eq_true_eq, List.any_eq_true,
      Bool.and_eq_true, Bool.not_eq_true']
    exact or_assoc
  · intro hdf
    rw [hdflag] at hdf
    simp only [Bool.or_eq_false_iff, decide_eq_false_iff_not] at hdf
    rw [hstep, hsim]
    omega

/-- Witness for C1: the baseline two-station engine, stepped without spawns. -/
theorem claim_C1_witness :
    sW1.env.current_step = envW.current_step + 1 ∧
    sW1.env.simulation_length = envW.simulation_length ∧
    (sW1.done = true ↔
      (sW1.env.simulation_length ≤ sW1.env.current_step ∨
        (∃ x ∈ sW1.satisfactions, x < sW1.env.score_threshold) ∨
        ((∃ tr ∈ sW1.env.transformers, tr.is_overloaded = true) ∧
          sW1.env.generate_rnd_game = false))) ∧
    (sW1.done = false → sW1.env.current_step < sW1.env.simulation_length) :=
  claim_C1 trivialCS envW [0, 0] rngNo sW1 rfl

/-- C5: on every successful (hence non-grid) step the returned reward equals
the total cost accumulated over the stations this step, and
`_calculate_reward` returns exactly its total-costs argument, ignoring the
satisfaction list. -/
theorem claim_C5 (f : CSStep) (env : EVCity) (actions : List ℚ)
    (rng : Nat → SpawnRand) (s : StepResult)
    (h : EVCity.stepCore f env actions rng = .ok s) :
    s.reward = s.total_costs ∧
    s.reward = calculate_reward s.total_costs s.satisfactions ∧
    (∀ tc l, calculate_reward tc l = tc) := by
  obtain ⟨acc, st1, acc1, hdone, hsl, hpp, hgrid, hsat, htc, hrw, hrest⟩ :=
    stepCore_ok_inv f env actions rng s h
  rw [hrw, htc]
  exact ⟨rfl, rfl, fun _ _ => rfl⟩

/-- Witness for C5 at the baseline engine. -/
theorem claim_C5_witness :
    sW1.reward = sW1.total_costs ∧
    sW1.reward = calculate_reward sW1.total_costs sW1.satisfactions ∧
    (∀ tc l, calculate_reward tc l = tc) :=
  claim_C5 trivialCS envW [0, 0] rngNo sW1 rfl

/-- C6: any `step` call on an engine whose done flag is set fails with the
episode-finished error, and the error state is exactly the unchanged input
engine. -/
theorem claim_C6 (f : CSStep) (env : EVCity) (actions : List ℚ)
    (rng : Nat → SpawnRand) (h : env.done = true) :
    EVCity.stepCore f env actions rng = .error (.episodeDone, env) := by
  unfold EVCity.stepCore
  rw [if_pos h]

/-- Witness for C6: the finished baseline engine. -/
theorem claim_C6_witness :
    EVCity.stepCore trivialCS envDone [0, 0] rngNo
      = .error (.episodeDone, envDone) :=
  claim_C6 trivialCS envDone [0, 0] rngNo rfl

/-- C3 (code bug): evaluated on a finished engine, `reset` zeroes the step
counter, resets every station and returns the observation of the reset state,
but it does not clear the done flag, so a `step` call right after `reset`
still fails with the episode-finished error, contradicting the claim (and the
assertion message of the source, which asks the caller to reset). -/
theorem claim_C3 :
    (EVCity.reset envDone).1.current_step = 0 ∧
    (EVCity.reset envDone).1.charging_stations
      = envDone.charging_stations.map EV_Charger.reset ∧
    (EVCity.reset envDone).2 = (EVCity.reset envDone).1.get_observation ∧
    (EVCity.reset envDone).1.done = true ∧
    errKind (EVCity.stepCore trivialCS (EVCity.reset envDone).1 [0, 0] rngNo)
      = some .episodeDone :=
  ⟨rfl, rfl, rfl, rfl, rfl⟩

/-- C4: after every successful step, each transformer's accumulated power is
exactly the sum of `current_power_output` over the stations assigned to it,
for that step alone: the accumulator is zeroed before any station reports
power, so the values it held before the call never carry over. -/
theorem claim_C4 (f : CSStep) (env : EVCity) (actions : List ℚ)
    (rng : Nat → SpawnRand) (s : StepResult)
    (h : EVCity.stepCore f env actions rng = .ok s) :
    ∀ k : Nat, k < s.env.transformers.length →
      (s.env.transformers[k]?).map (fun t => t.current_power)
        = some (powerSum k s.env.charging_stations) := by
  obtain ⟨acc, st1, acc1, hdone, hsl, hpp, hgrid, hsat, htc, hrw, hst, htr,
    hstep, hsim, hthr, hrnd, hevs, harr, hdflag⟩ :=
    stepCore_ok_inv f env actions rng s h
  obtain ⟨nd, ne, l1, l2, l3, l4, l5, l6, l7, l8, l9, l10⟩ :=
    stationLoop_ok f (mkCfg env) actions rng env.charging_stations 0
      (initAcc env) acc hsl
  have hpow : acc1.transformers = acc.transformers ∧
      (∀ k : Nat, powerSum k st1 = powerSum k acc.stations_done) := by
    cases hprof : env.ev_profiles with
    | none =>
      rw [hprof] at hpp
      unfold profilePhase at hpp
      have h' := Except.ok.inj hpp
      have h1 : acc.stations_done = st1 := congrArg Prod.fst h'
      have h2 : acc = acc1 := congrArg Prod.snd h'
      subst h1
      subst h2
      exact ⟨rfl, fun _ => rfl⟩
    | some profile =>
      rw [hprof] at hpp
      unfold profilePhase at hpp
      obtain ⟨q1, q2, q3, q4⟩ := profileLoop_ok (mkCfg env) _ _ _ _ _ hpp
      exact ⟨q1, q4⟩
  obtain ⟨htr1, hps⟩ := hpow
  intro k hk
  have hlen2 : s.env.transformers.length = env.transformers.length := by
    rw [htr, htr1, l2]
    simp [initAcc]
  have hk' : k < env.transformers.length := hlen2 ▸ hk
  have hinit : (initAcc env).transformers[k]?
      = (env.transformers[k]?).map (fun t => { t with current_power := 0 }) := by
    simp only [initAcc, List.getElem?_map]
  have hstep2 : (acc.transformers[k]?).map (fun t => t.current_power)
      = some (powerSum k nd) := by
    rw [l6 k, hinit, List.getElem?_eq_getElem hk']
    simp
  have hnd : acc.stations_done = nd := by
    rw [l1]
    simp [initAcc]
  rw [htr, htr1, hst, hps k, hnd]
  exact hstep2

/-- Length of the transformer list in the concrete no-spawn step result. -/
theorem sW1_transformers_length : sW1.env.transformers.length = 1 := by
  with_unfolding_all rfl

/-- Witness for C4: the concrete two-station engine, transformer 0. -/
theorem claim_C4_witness :
    (sW1.env.transformers[(0 : Nat)]?).map (fun t => t.current_power)
      = some (powerSum 0 sW1.env.charging_stations) :=
  claim_C4 trivialCS envW [0, 0] rngNo sW1 rfl 0
    (by rw [sW1_transformers_length]; exact Nat.zero_lt_one)

/-- C7 (amended): in random mode the engine invokes `spawn_ev` only behind
the free-port guard, so on well-formed stations a step never surfaces the
capacity error; the profile-mode spawning path has no such guard and the
error is reachable there (see the counterexample). -/
theorem claim_C7_amended (f : CSStep) (env : EVCity) (actions : List ℚ)
    (rng : Nat → SpawnRand) (hf : CSStepOK f)
    (hprof : env.ev_profiles = none)
    (hwf : ∀ cs ∈ env.charging_stations, cs.WF) :
    errKind (EVCity.stepCore f env actions rng) ≠ some .capacity := by
  unfold EVCity.stepCore
  by_cases hdone : env.done = true
  · rw [if_pos hdone]
    simp [errKind]
  rw [if_neg hdone]
  cases hsl : stationLoop f (mkCfg env) actions rng env.charging_stations 0
      (initAcc env) with
  | error ear =>
    obtain ⟨e, acc2, rest⟩ := ear
    dsimp only
    simp only [errKind]
    intro hcap
    exact stationLoop_no_capacity f (mkCfg env) actions rng hf
      env.charging_stations 0 (initAcc env) hwf e acc2 rest hsl
      (Option.some.inj hcap)
  | ok acc =>
    dsimp only
    rw [hprof]
    unfold profilePhase
    dsimp only
    by_cases hgrid : env.simulate_grid = true
    · rw [if_pos hgrid]
      simp [errKind]
    · rw [if_neg hgrid]
      simp [errKind]

/-- Counterexample to C7 as stated: in profile mode the engine calls
`spawn_ev` with no free-port check, and on a concrete engine whose only
station is full while the profile schedules an arrival for the next step the
capacity error surfaces. -/
theorem claim_C7_counterexample :
    errKind (EVCity.stepCore trivialCS envProf [0] rngW) = some .capacity :=
  rfl

/-- Witness for the amended C7 at the baseline random-mode engine. -/
theorem claim_C7_witness :
    errKind (EVCity.stepCore trivialCS envW [0, 0] rngNo)
      ≠ some .capacity :=
  claim_C7_amended trivialCS envW [0, 0] rngNo trivialCS_ok rfl (by decide)

/-- C9: in random mode, with numpy-valid randomness and replay recording on,
every EV a successful step spawns arrives at the next step with battery in
[1, 49) and departure eligibility between 7 and 14 steps after arrival; the
spawned EVs hit distinct stations in station order, so at most one EV per
station per step; a spawn only happens when the stepped station has strictly
fewer connected EVs than ports; and nothing spawns when the
empty-ports-at-end policy is on and the episode is within max-stay reach of
its end. -/
theorem claim_C9 (f : CSStep) (env : EVCity) (actions : List ℚ)
    (rng : Nat → SpawnRand) (s : StepResult)
    (hf : CSStepOK f) (hprof : env.ev_profiles = none)
    (hsave : env.save_replay = true) (hrng : ∀ j, (rng j).Valid)
    (h : EVCity.stepCore f env actions rng = .ok s) :
    (∃ newEVs, s.env.EVs = env.EVs ++ newEVs ∧
      (∀ ev ∈ newEVs, GoodSpawn env.current_step ev) ∧
      (newEVs.map (fun ev => ev.location)).Sublist
        (env.charging_stations.map (fun cs => cs.id))) ∧
    (env.empty_ports_at_end_of_simulation = true →
      env.simulation_length ≤ env.current_step + 1 + 15 →
      s.env.EVs = env.EVs ∧ s.env.current_ev_arrived = 0) ∧
    (∀ (cfg : StepCfg) (r : SpawnRand) (acc acc' : LoopAcc) (cs : EV_Charger),
      stationBody f cfg actions r acc cs = .ok acc' →
      acc'.total_evs_spawned ≠ acc.total_evs_spawned →
      (steppedStation f cfg actions acc.port_counter cs).n_evs_connected
        < cs.n_ports) := by
  obtain ⟨acc, st1, acc1, hdone, hsl, hpp, hgrid, hsat, htc, hrw, hst, htr,
    hstep, hsim, hthr, hrnd, hevs, harr, hdflag⟩ :=
    stepCore_ok_inv f env actions rng s h
  obtain ⟨nd, ne, l1, l2, l3, l4, l5, l6, l7, l8, l9, l10⟩ :=
    stationLoop_ok f (mkCfg env) actions rng env.charging_stations 0
      (initAcc env) acc hsl
  have hacc1 : acc = acc1 := by
    rw [hprof] at hpp
    unfold profilePhase at hpp
    exact congrArg Prod.snd (Except.ok.inj hpp)
  have hrm : (mkCfg env).random_mode = true := by
    simp [mkCfg, hprof]
  have hsave' : (mkCfg env).save_replay = true := hsave
  have hEVs : s.env.EVs = env.EVs ++ ne := by
    rw [hevs, ← hacc1, l4, hsave']
    simp [initAcc]
  refine ⟨⟨ne, hEVs, l8 hrng, l9 hf⟩, ?_, ?_⟩
  · intro hflag hsim2
    have hne : ne = [] :=
      l10 hrm (by simp [initAcc, hflag]) hsim2
    constructor
    · rw [hEVs, hne]
      simp
    · rw [harr, ← hacc1, l5, hne]
      simp [initAcc]
  · intro cfg r acc0 acc0' cs0 hb hchanged
    obtain ⟨cs2, ne0, e1, e2, e3, e4, e5, e6, e7, e8, e9, e10, e11, e12, e13,
      e14, e15, e16, e17, e18⟩ := stationBody_ok f cfg actions r acc0 cs0 _ hb
    apply e17
    intro hnil
    rw [hnil] at e5
    simp at e5
    exact hchanged e5

/-- Witness for C9: the baseline engine, stepped with the below-threshold
oracle so that both stations spawn. -/
theorem claim_C9_witness :
    (∃ newEVs, sW9.env.EVs = envW.EVs ++ newEVs ∧
      (∀ ev ∈ newEVs, GoodSpawn envW.current_step ev) ∧
      (newEVs.map (fun ev => ev.location)).Sublist
        (envW.charging_stations.map (fun cs => cs.id))) ∧
    (envW.empty_ports_at_end_of_simulation = true →
      envW.simulation_length ≤ envW.current_step + 1 + 15 →
      sW9.env.EVs = envW.EVs ∧ sW9.env.current_ev_arrived = 0) ∧
    (∀ (cfg : StepCfg) (r : SpawnRand) (acc acc' : LoopAcc) (cs : EV_Charger),
      stationBody trivialCS cfg [0, 0] r acc cs = .ok acc' →
      acc'.total_evs_spawned ≠ acc.total_evs_spawned →
      (steppedStation trivialCS cfg [0, 0] acc.port_counter
        cs).n_evs_connected < cs.n_ports) :=
  claim_C9 trivialCS envW [0, 0] rngW sW9 trivialCS_ok rfl rfl
    (fun _ => srW_valid) rfl

/-- C2 (amended): provided the max-stay configuration check cannot fire first
(profile mode, or a simulation length of at least the fixed 15-step maximum
stay), an action vector shorter than the total port count makes `step` fail
with the modelled action-length precondition violation, and the step counter
is not advanced and the done flag is not set; the engine state is however not
left unchanged in general — the transformer accumulators have already been
zeroed and the stations before the failing slice have already been stepped.
Without that proviso the assertion is false: on a random-mode engine with
simulation length below 15, a short action vector makes `step` fail with the
max-stay configuration error at station 0 instead, before the shortfall is
ever reached (see the counterexample). -/
theorem claim_C2_amended (f : CSStep) (env : EVCity) (actions : List ℚ)
    (rng : Nat → SpawnRand) (hf : CSStepOK f)
    (hdone : env.done = false)
    (hwf : ∀ cs ∈ env.charging_stations, cs.WF)
    (hct : ∀ cs ∈ env.charging_stations,
      cs.connected_transformer < env.transformers.length)
    (hrand : env.ev_profiles = none → 15 ≤ env.simulation_length)
    (hshort : actions.length < env.number_of_ports) :
    ∃ envE, EVCity.stepCore f env actions rng = .error (.actionLength, envE) ∧
      envE.current_step = env.current_step ∧ envE.done = false := by
  have hrm : (mkCfg env).random_mode = true →
      15 ≤ (mkCfg env).simulation_length := by
    intro h
    cases hp : env.ev_profiles with
    | none => exact hrand hp
    | some p =>
      rw [show (mkCfg env).random_mode = env.ev_profiles.isNone from rfl,
        hp] at h
      simp at h
  obtain ⟨acc1, rest1, hloop⟩ := stationLoop_short f (mkCfg env) actions rng
    hf hrm env.charging_stations 0 (initAcc env) hwf
    (fun c hc => by simpa [initAcc] using hct c hc)
    (by simp [initAcc])
    (by simpa [initAcc, EVCity.number_of_ports] using hshort)
  refine ⟨restoreErr env acc1 (acc1.stations_done ++ rest1), ?_, rfl, hdone⟩
  unfold EVCity.stepCore
  rw [if_neg (by rw [hdone]; simp)]
  rw [hloop]

/-- Counterexample to C2 as stated, on both counts. First, the failure is not
always the action-length violation: on the short-simulation random-mode
engine, the one-entry action vector (against two ports) fails with the
max-stay configuration error raised at station 0, before the shortfall is
reached. Second, even when the action-length error does fire, the engine
state is not left unchanged: on the baseline engine, whose transformer
carries leftover power 7, the error state's transformer accumulator reads 0,
having been zeroed at the top of the step. -/
theorem claim_C2_counterexample :
    ([(0 : ℚ)].length < envShort.number_of_ports ∧
      errKind (EVCity.stepCore trivialCS envShort [0] rngNo)
        = some .maxStayConfig) ∧
    errKind (EVCity.stepCore trivialCS envW [] rngNo) = some .actionLength ∧
    (errEnv (EVCity.stepCore trivialCS envW [] rngNo)).map
      (fun e => e.transformers.map (fun t => t.current_power)) = some [0] ∧
    envW.transformers.map (fun t => t.current_power) = [7] :=
  ⟨⟨by decide, rfl⟩, rfl, rfl, rfl⟩

/-- Witness for the amended C2: the baseline engine with a one-entry action
vector against two ports. -/
theorem claim_C2_witness :
    ∃ envE, EVCity.stepCore trivialCS envW [0] rngNo
        = .error (.actionLength, envE) ∧
      envE.current_step = envW.current_step ∧ envE.done = false :=
  claim_C2_amended trivialCS envW [0] rngNo trivialCS_ok rfl (by decide)
    (by decide) (by decide) (by decide)

/-- C8 (amended): with no EV profile loaded and the simulation length below
the fixed 15-step maximum EV stay, the configuration error is raised on the
step call — not at construction — provided at least one charging station is
configured, its slice of the action vector is full-length and its transformer
index is in range; the error occurs before any EV is spawned: the spawn
counter and the EV history are unchanged, and the step counter is not
advanced. -/
theorem claim_C8_amended (f : CSStep) (env : EVCity) (actions : List ℚ)
    (rng : Nat → SpawnRand) (cs0 : EV_Charger) (rest : List EV_Charger)
    (hdone : env.done = false) (hprof : env.ev_profiles = none)
    (hcs : env.charging_stations = cs0 :: rest)
    (hsim : env.simulation_length < 15)
    (hlen : cs0.n_ports ≤ actions.length)
    (hct : (steppedStation f (mkCfg env) actions 0 cs0).connected_transformer
      < env.transformers.length) :
    ∃ envE, EVCity.stepCore f env actions rng
        = .error (.maxStayConfig, envE) ∧
      envE.total_evs_spawned = env.total_evs_spawned ∧
      envE.EVs = env.EVs ∧
      envE.current_step = env.current_step := by
  obtain ⟨envE, he, h1, _, h3, h4, _⟩ :=
    maxStay_raise f env actions rng cs0 rest hdone hprof hcs hsim hlen hct
  exact ⟨envE, he, h3, h4, h1⟩

/-- Counterexample to C8 as stated: the max-stay check lives inside the
per-station loop, so an engine with no charging stations, no profile and
simulation length 3 < 15 raises no error at all on its first step call. -/
theorem claim_C8_counterexample :
    envZero.ev_profiles = none ∧ envZero.simulation_length < 15 ∧
    errKind (EVCity.stepCore trivialCS envZero [] rngW) = none :=
  ⟨rfl, by decide, rfl⟩

/-- Witness for the amended C8: the two-station engine with simulation length
3 fails with the max-stay configuration error on its first step. -/
theorem claim_C8_witness :
    ∃ envE, EVCity.stepCore trivialCS envShort [0, 0] rngNo
        = .error (.maxStayConfig, envE) ∧
      envE.total_evs_spawned = envShort.total_evs_spawned ∧
      envE.EVs = envShort.EVs ∧
      envE.current_step = envShort.current_step :=
  claim_C8_amended trivialCS envShort [0, 0] rngNo csW0 [csW1]
    rfl rfl rfl (by decide) (by decide) (by decide)

/-- C10: the step is not atomic on the max-stay configuration error: when the
error is raised, every transformer accumulator has been zeroed and the first
station has already been stepped with its slice of actions and this step's
prices, its power output fed into its transformer, while the step counter is
not advanced and the done flag remains false. -/
theorem claim_C10 (f : CSStep) (env : EVCity) (actions : List ℚ)
    (rng : Nat → SpawnRand) (cs0 : EV_Charger) (rest : List EV_Charger)
    (hdone : env.done = false) (hprof : env.ev_profiles = none)
    (hcs : env.charging_stations = cs0 :: rest)
    (hsim : env.simulation_length < 15)
    (hlen : cs0.n_ports ≤ actions.length)
    (hct : (steppedStation f (mkCfg env) actions 0 cs0).connected_transformer
      < env.transformers.length) :
    ∃ envE, EVCity.stepCore f env actions rng
        = .error (.maxStayConfig, envE) ∧
      envE.current_step = env.current_step ∧
      envE.done = false ∧
      envE.charging_stations
        = steppedStation f (mkCfg env) actions 0 cs0 :: rest ∧
      envE.transformers.map (fun t => t.current_power)
        = (env.transformers.map (fun t => (0 : ℚ))).set
            (steppedStation f (mkCfg env) actions 0 cs0).connected_transformer
            (steppedStation f (mkCfg env) actions 0 cs0).current_power_output ∧
      envE.transformers.map (fun t => t.max_power)
        = env.transformers.map (fun t => t.max_power) := by
  obtain ⟨envE, he, h1, h2, _, _, h5, _, h7, h8⟩ :=
    maxStay_raise f env actions rng cs0 rest hdone hprof hcs hsim hlen hct
  exact ⟨envE, he, h1, h2, h5, h7, h8⟩

/-- Witness for C10: the concrete short-simulation engine, whose error state
shows the zeroed-then-fed transformer and the stepped first station. -/
theorem claim_C10_witness :
    ∃ envE, EVCity.stepCore trivialCS envShort [0, 0] rngNo
        = .error (.maxStayConfig, envE) ∧
      envE.current_step = envShort.current_step ∧
      envE.done = false ∧
      envE.charging_stations
        = steppedStation trivialCS (mkCfg envShort) [0, 0] 0 csW0 :: [csW1] ∧
      envE.transformers.map (fun t => t.current_power)
        = (envShort.transformers.map (fun t => (0 : ℚ))).set
            (steppedStation trivialCS (mkCfg envShort) [0, 0]
              0 csW0).connected_transformer
            (steppedStation trivialCS (mkCfg envShort) [0, 0]
              0 csW0).current_power_output ∧
      envE.transformers.map (fun t => t.max_power)
        = envShort.transformers.map (fun t => t.max_power) :=
  claim_C10 trivialCS envShort [0, 0] rngNo csW0 [csW1]
    rfl rfl rfl (by decide) (by decide) (by decide)

end EV2Gym
